import Mathlib

/-!
Verification of the `ai-commit` tool (src/ai_commit/__main__.py) against its
natural-language specification.

The program is a linear interactive pipeline: read the staged git diff,
ask a remote model for a commit message, run an accept/reject/edit/regenerate
loop, and commit.  We embed it shallowly:

* Python strings are `List Char` (Python strings are sequences of code
  points, so `len`/slicing correspond exactly to `List.length`/`List.take`).
* The results of the three external collaborators (the `git diff` subprocess,
  the chat-completion API, the `git commit` subprocess) are inductive data
  supplied by the environment.
* User console input is a scripted stream of events; an interrupt event
  models a `KeyboardInterrupt` raised at that blocking input call.
* Observable behaviour (console output, the commit subprocess invocation)
  is an explicit list of effects.
* The unbounded review loop `prompt_commit_message` takes fuel; running out
  of fuel or out of scripted events yields the artificial result `stuck`,
  which corresponds to no real execution and appears in no claim.
-/

namespace AiCommit

/-- Python strings, seen as sequences of code points. -/
abbrev PyStr := List Char

/-- Coerce a Lean string literal to its code-point sequence. -/
def str (s : String) : PyStr := s.data

/-- The characters removed by Python `str.strip()` (ASCII whitespace;
the source only ever strips console input and git/API output). -/
def pyIsSpace (c : Char) : Bool :=
  c = ' ' || c = '\t' || c = '\n' || c = '\r' || c = '\x0b' || c = '\x0c'

/-- Python `str.strip()`: drop leading and trailing whitespace. -/
def pyStrip (s : PyStr) : PyStr :=
  ((s.dropWhile pyIsSpace).reverse.dropWhile pyIsSpace).reverse

/-- Python `str.lower()` (the source lowercases one-word ASCII choices). -/
def pyLower (s : PyStr) : PyStr := s.map Char.toLower

/-- Python truthiness of a `str`: non-empty. -/
def pyTruthyStr (s : PyStr) : Bool := !s.isEmpty

/-- Python truthiness of a `str | None` value: not `None` and not `""`. -/
def pyTruthy (o : Option PyStr) : Bool := pyTruthyStr (o.getD [])

/-- Python `str(x)` for an `Optional[str]`, as used by the f-string that
formats `getattr(e, 'stderr', e)`. -/
def pyStrOfOptional : Option PyStr → PyStr
  | none => str "None"
  | some s => s

/-- Result of the `git diff --staged` subprocess call as observed by
`get_staged_diff`: captured combined output on exit 0, a
`subprocess.CalledProcessError` carrying the captured combined output
(`stderr=subprocess.STDOUT`), or a `FileNotFoundError` when the `git`
binary cannot be located. -/
inductive SubprocessResult where
  | success (output : PyStr)
  | calledProcessError (output : PyStr)
  | fileNotFoundError
deriving DecidableEq

/-- Result of the chat-completion API call as observed by
`generate_commit_message`: a successful response content, an
`HTTPError`, a `RequestException`, or any other unexpected exception. -/
inductive ApiResult where
  | success (content : PyStr)
  | httpError (msg : PyStr)
  | requestException (msg : PyStr)
  | unexpectedError (msg : PyStr)
deriving DecidableEq

/-- Result of the `git commit -F -` subprocess call.  `subprocess.run` is
invoked without capturing stderr, so on failure the
`CalledProcessError.stderr` attribute read by `getattr(e, 'stderr', e)`
is `None` in every real run; we keep the `Option` to embed the source's
`getattr` faithfully. -/
inductive CommitResult where
  | success
  | calledProcessError (stderrAttr : Option PyStr)
deriving DecidableEq

/-- One scripted result of `console.input`: either the entered text or a
`KeyboardInterrupt` raised while blocked at that prompt. -/
inductive UserEvent where
  | text (s : PyStr)
  | interrupt
deriving DecidableEq

/-- Observable effects: console prints (the diff panel and the
suggested-message panel kept distinct), and the invocation of the git
commit subprocess with its message. -/
inductive Eff where
  | print (s : PyStr)
  | showDiff (s : PyStr)
  | showSuggested (s : PyStr)
  | commitCall (msg : PyStr)
deriving DecidableEq

/-- The interactive context threaded through the loop: the remaining
scripted console inputs and the remaining scripted API-call results. -/
structure Ctx where
  inputs : List UserEvent
  gens : List ApiResult
deriving DecidableEq

/-- Outcome of a fragment of the interactive flow: a value together with
the remaining context, a propagating `sys.exit(code)` (`SystemExit`), a
propagating `KeyboardInterrupt`, or the modelling artefact `stuck`
(fuel or scripted events exhausted — no real execution). Each carries
the effects emitted so far, in order. -/
inductive FlowResult where
  | ok (msg : PyStr) (ctx : Ctx) (effs : List Eff)
  | exit (code : Nat) (effs : List Eff)
  | interrupt (effs : List Eff)
  | stuck (effs : List Eff)
deriving DecidableEq

/-- Prepend earlier effects onto a result. -/
def FlowResult.prepend (r : FlowResult) (pre : List Eff) : FlowResult :=
  match r with
  | .ok m c e => .ok m c (pre ++ e)
  | .exit c e => .exit c (pre ++ e)
  | .interrupt e => .interrupt (pre ++ e)
  | .stuck e => .stuck (pre ++ e)

/-- The effects carried by a result. -/
def FlowResult.effs : FlowResult → List Eff
  | .ok _ _ e => e
  | .exit _ e => e
  | .interrupt e => e
  | .stuck e => e

-- ============ Git helpers ============

/-- `MAX_DIFF_CHARS = 5000  # truncate long diffs`. -/
def MAX_DIFF_CHARS : Nat := 5000

/-- The truncation marker appended by `get_staged_diff`. -/
def truncationMarker : PyStr := str "\n... [truncated]"

/-- Embeds `get_staged_diff`: strip the captured output; empty → `None`;
longer than `MAX_DIFF_CHARS` → first 5000 characters plus the marker;
`CalledProcessError` and `FileNotFoundError` are caught and yield `None`. -/
def get_staged_diff (r : SubprocessResult) : Option PyStr :=
  match r with
  | .success out =>
      let diff := pyStrip out
      if diff.isEmpty then none
      else if diff.length > MAX_DIFF_CHARS then
        some (diff.take MAX_DIFF_CHARS ++ truncationMarker)
      else some diff
  | .calledProcessError _ => none
  | .fileNotFoundError => none

/-- The logger lines emitted by `get_staged_diff` (the `%s`-formatted
`logger.warning` / `logger.error` calls). -/
def get_staged_diff_log (r : SubprocessResult) : List PyStr :=
  match r with
  | .success out =>
      let diff := pyStrip out
      if diff.isEmpty then []
      else if diff.length > MAX_DIFF_CHARS then
        [str "Diff too long, truncating to 5000 chars"]
      else []
  | .calledProcessError out => [str "Error getting git diff: " ++ out]
  | .fileNotFoundError =>
      [str "Git command not found. Please ensure git is installed and in your PATH."]

-- ============ Commit message generation ============

/-- Embeds `generate_commit_message`: on a successful response the content
is stripped of surrounding whitespace and returned; `HTTPError`,
`RequestException` and any unexpected exception are caught and yield
`None`.  (The prompt template, model id and credential do not influence
which branch is taken and are carried by the environment's `ApiResult`.) -/
def generate_commit_message (r : ApiResult) : Option PyStr :=
  match r with
  | .success content => some (pyStrip content)
  | .httpError _ => none
  | .requestException _ => none
  | .unexpectedError _ => none

/-- The logger lines emitted by `generate_commit_message`. -/
def generate_commit_message_log (r : ApiResult) : List PyStr :=
  match r with
  | .success _ => []
  | .httpError e => [str "API error: " ++ e]
  | .requestException e => [str "API error: " ++ e]
  | .unexpectedError _ => [str "Unexpected error generating commit message"]

-- ============ Git commit ============

/-- Embeds `commit_with_message`: run `git commit -F -` (the `commitCall`
effect), then print the success banner, or — when `subprocess.run`
raises `CalledProcessError` — print the error notice formatting
`getattr(e, 'stderr', e)`.  The function swallows the error and returns
normally in both cases (no `sys.exit`). -/
def commit_with_message (c : CommitResult) (msg : PyStr) : List Eff :=
  match c with
  | .success =>
      [.commitCall msg,
       .print (str "\n✅ Successfully committed with message: [bold green]"
          ++ msg ++ str "[/bold green]")]
  | .calledProcessError st =>
      [.commitCall msg,
       .print (str "\n[red]Git commit error:[/red]\n" ++ pyStrOfOptional st)]

-- ============ Console message literals ============

/-- `prompt_manual_message`'s (and `main`'s) empty-message notice. -/
def emptyMsgNotice : PyStr := str "[red]Commit message cannot be empty. Exiting.[/red]"

/-- The notice printed when the user rejects the suggestion. -/
def commitCancelledMsg : PyStr := str "[red]Commit cancelled by user.[/red]"

/-- The invalid-choice notice (the quote marks around the four letters in
the source literal are elided). -/
def invalidChoiceMsg : PyStr := str "[red]Invalid choice. Enter y, n, e, or r.[/red]"

/-- `main`'s notice when generation failed. -/
def failedGenMsg : PyStr :=
  str "[red]Failed to generate a commit message. Please write one manually.[/red]"

/-- `main`'s notice when there are no staged changes. -/
def noStagedMsg : PyStr :=
  str "\n[red]No staged changes. Stage your files first (`git add`).[/red]"

/-- `main`'s `KeyboardInterrupt` cancellation notice. -/
def cancelNotice : PyStr :=
  str "\n\n[bold yellow]Operation cancelled by user. Exiting.[/bold yellow]"

/-- The commit-failure notice as it actually renders: `stderr` is not
captured by the `subprocess.run` call, so `getattr(e, 'stderr', e)` is
`None` and the f-string shows the literal text `None`. -/
def gitCommitErrorNoneMsg : PyStr := str "\n[red]Git commit error:[/red]\nNone"

-- ============ User prompt functions ============

/-- Embeds `prompt_manual_message`.  The source wraps the body in
`while True`, but the `else` path of the body calls `sys.exit(1)`
unconditionally, so the loop body executes at most once and the loop is
equivalent to its single iteration embedded here: non-empty stripped
input is returned, empty stripped input prints the notice and exits 1. -/
def prompt_manual_message (ctx : Ctx) : FlowResult :=
  match ctx.inputs with
  | [] => .stuck []
  | .interrupt :: _ => .interrupt []
  | .text raw :: rest =>
      if pyTruthyStr (pyStrip raw) then .ok (pyStrip raw) ⟨rest, ctx.gens⟩ []
      else .exit 1 [.print emptyMsgNotice]

/-- `choice in ["y", "yes", ""]`. -/
def isAcceptChoice (c : PyStr) : Bool := c == str "y" || c == str "yes" || c == []

/-- `choice in ["n", "no"]`. -/
def isRejectChoice (c : PyStr) : Bool := c == str "n" || c == str "no"

/-- `choice in ["e", "edit"]`. -/
def isEditChoice (c : PyStr) : Bool := c == str "e" || c == str "edit"

/-- `choice in ["r", "regen", "regenerate"]`. -/
def isRegenChoice (c : PyStr) : Bool :=
  c == str "r" || c == str "regen" || c == str "regenerate"

/-- Embeds `prompt_commit_message`'s `while True` review loop, with fuel
bounding the number of iterations (`stuck` when it runs out).  Each
iteration reads a choice, strips and lowercases it, and dispatches:
accept returns the current message, reject prints and exits 0, edit
runs `prompt_manual_message` and continues the loop with its result,
regenerate calls the generator and either displays the new suggestion
and continues with it or falls back to manual entry, and anything else
prints the invalid-choice notice and re-prompts unchanged. -/
def prompt_commit_message : Nat → PyStr → Ctx → FlowResult
  | 0, _, _ => .stuck []
  | fuel + 1, msg, ctx =>
    match ctx.inputs with
    | [] => .stuck []
    | .interrupt :: _ => .interrupt []
    | .text raw :: rest =>
      let choice := pyLower (pyStrip raw)
      if isAcceptChoice choice then .ok msg ⟨rest, ctx.gens⟩ []
      else if isRejectChoice choice then .exit 0 [.print commitCancelledMsg]
      else if isEditChoice choice then
        match prompt_manual_message ⟨rest, ctx.gens⟩ with
        | .ok m ctx2 effs => (prompt_commit_message fuel m ctx2).prepend effs
        | .exit c effs => .exit c effs
        | .interrupt effs => .interrupt effs
        | .stuck effs => .stuck effs
      else if isRegenChoice choice then
        match ctx.gens with
        | [] => .stuck []
        | g :: gs =>
          let m2 := generate_commit_message g
          if pyTruthy m2 then
            (prompt_commit_message fuel (m2.getD []) ⟨rest, gs⟩).prepend
              [.showSuggested (m2.getD [])]
          else
            match prompt_manual_message ⟨rest, gs⟩ with
            | .ok m ctx2 effs => (prompt_commit_message fuel m ctx2).prepend effs
            | .exit c effs => .exit c effs
            | .interrupt effs => .interrupt effs
            | .stuck effs => .stuck effs
      else
        (prompt_commit_message fuel msg ⟨rest, ctx.gens⟩).prepend
          [.print invalidChoiceMsg]

-- ============ Main ============

/-- The environment of one run: the scripted results of the three
external collaborators and the scripted console inputs. -/
structure Env where
  diffResult : SubprocessResult
  genResults : List ApiResult
  userInputs : List UserEvent
  commitResult : CommitResult
deriving DecidableEq

/-- Embeds the body of `main`'s `try` block up to (but excluding) the
final `commit_with_message` call: obtain the diff (exit 1 with the
notice when falsy), display it, run the initial generation, and either
review the suggestion via `prompt_commit_message` or print the failure
notice and fall back to `prompt_manual_message` (including `main`'s own
redundant empty-message check after it).  The `ok` value is the final
commit message. -/
def mainMessage (fuel : Nat) (env : Env) : FlowResult :=
  let diffOpt := get_staged_diff env.diffResult
  if pyTruthy diffOpt then
    let diff := diffOpt.getD []
    match env.genResults with
    | [] => .stuck [.showDiff diff]
    | g :: gs =>
      let msg0 := generate_commit_message g
      let ctx : Ctx := ⟨env.userInputs, gs⟩
      if pyTruthy msg0 then
        (prompt_commit_message fuel (msg0.getD []) ctx).prepend
          [.showDiff diff, .showSuggested (msg0.getD [])]
      else
        (FlowResult.prepend
          (match prompt_manual_message ctx with
           | .ok m ctx2 effs =>
               if m.isEmpty then .exit 1 (effs ++ [.print emptyMsgNotice])
               else .ok m ctx2 effs
           | .exit c effs => .exit c effs
           | .interrupt effs => .interrupt effs
           | .stuck effs => .stuck effs)
          [.showDiff diff, .print failedGenMsg])
  else
    .exit 1 [.print noStagedMsg]

/-- How `main` terminates: a `sys.exit(code)`, a normal return from
`main()`, or the modelling artefact `stuck`. -/
inductive MainResult where
  | exited (code : Nat)
  | returnedNormally
  | stuck
deriving DecidableEq

/-- Embeds `main`: run the try-block flow; on a final message invoke
`commit_with_message` and return normally (that call never raises or
exits), let `sys.exit` codes propagate, and catch `KeyboardInterrupt`
by printing the cancellation notice and exiting 0. -/
def mainRun (fuel : Nat) (env : Env) : MainResult × List Eff :=
  match mainMessage fuel env with
  | .ok msg _ effs =>
      (MainResult.returnedNormally, effs ++ commit_with_message env.commitResult msg)
  | .exit c effs => (MainResult.exited c, effs)
  | .interrupt effs => (MainResult.exited 0, effs ++ [.print cancelNotice])
  | .stuck effs => (MainResult.stuck, effs)

/-- Modelled from the spec: the process exit status of a completed run.
The packaged entry point that invokes `main()` is not under `src/`; per
the spec's invocation model a `sys.exit(code)` gives status `code`, and
a normal return from `main` ends the process with status 0 (Python's
convention for a module/entry point that finishes without `sys.exit`). -/
def processExitCode : MainResult → Option Nat
  | .exited c => some c
  | .returnedNormally => some 0
  | .stuck => none

-- ============ Auxiliary definitions for the theorems ============

/-- Is this effect an invocation of the git commit subprocess? -/
def isCommitCallEff : Eff → Bool
  | .commitCall _ => true
  | _ => false

/-- No commit subprocess invocation occurs in this effect list. -/
def commitFree (l : List Eff) : Bool := l.all fun e => !isCommitCallEff e

/-- A run whose staged diff and generation succeed, whose user accepts the
suggestion, and whose `git commit` subprocess exits non-zero. -/
def envC1 : Env :=
  ⟨.success (str "diff text"), [.success (str "feat: x")],
   [.text (str "y")], .calledProcessError none⟩

/-- A run in which the user chooses Edit, enters a non-empty message, and
then rejects at the next Reviewing prompt. -/
def envC2 : Env :=
  ⟨.success (str "d"), [.success (str "feat: x")],
   [.text (str "e"), .text (str "new message"), .text (str "n")], .success⟩

/-- A run in which the user chooses Edit and then enters an empty message,
with one further scripted input that would be consumed on a re-prompt. -/
def envC3 : Env :=
  ⟨.success (str "d"), [.success (str "feat: x")],
   [.text (str "e"), .text (str ""), .text (str "y")], .success⟩

/-- A run whose generation fails and whose first manual input is empty. -/
def envC3w : Env :=
  ⟨.success (str "d"), [.unexpectedError []], [.text (str "")], .success⟩

/-- A run whose generation fails, whose manual entry succeeds, and whose
commit succeeds. -/
def envC5 : Env :=
  ⟨.success (str "dd"), [.httpError (str "boom")],
   [.text (str " feat: y ")], .success⟩

/-- A run interrupted at the Reviewing prompt. -/
def envC6 : Env :=
  ⟨.success (str "d"), [.success (str "feat: x")], [.interrupt], .success⟩

/-- A run whose generation succeeds and whose user rejects the suggestion. -/
def envC9 : Env :=
  ⟨.success (str "d"), [.success (str "feat: x")], [.text (str "n")], .success⟩

-- ============ Helper lemmas ============

theorem FlowResult.prepend_nil (r : FlowResult) : r.prepend [] = r := by
  cases r <;> simp [FlowResult.prepend]

theorem FlowResult.effs_prepend (r : FlowResult) (l : List Eff) :
    (r.prepend l).effs = l ++ r.effs := by
  cases r <;> simp [FlowResult.prepend, FlowResult.effs]

theorem FlowResult.prepend_eq_ok {r : FlowResult} {l effs : List Eff} {m : PyStr}
    {ctx : Ctx} (h : r.prepend l = .ok m ctx effs) :
    ∃ e0, r = .ok m ctx e0 ∧ effs = l ++ e0 := by
  cases r <;> simp [FlowResult.prepend] at h
  obtain ⟨h1, h2, h3⟩ := h
  exact ⟨_, by rw [h1, h2], h3.symm⟩

theorem commitFree_append (l₁ l₂ : List Eff) :
    commitFree (l₁ ++ l₂) = (commitFree l₁ && commitFree l₂) := by
  simp [commitFree, List.all_append]

theorem not_mem_of_commitFree {l : List Eff} (h : commitFree l = true) (m : PyStr) :
    Eff.commitCall m ∉ l := by
  intro hm
  have := List.all_eq_true.mp h _ hm
  simp [isCommitCallEff] at this

theorem pyTruthyStr_iff (s : PyStr) : pyTruthyStr s = true ↔ s ≠ [] := by
  cases s <;> simp [pyTruthyStr]

theorem pyTruthy_getD {o : Option PyStr} (h : pyTruthy o = true) : o.getD [] ≠ [] :=
  (pyTruthyStr_iff _).mp h

/-- `prompt_manual_message` performs no commit call. -/
theorem manual_commitFree (ctx : Ctx) :
    commitFree (prompt_manual_message ctx).effs = true := by
  obtain ⟨ins, gens⟩ := ctx
  cases ins with
  | nil => rfl
  | cons ev rest =>
    cases ev with
    | interrupt => rfl
    | text raw =>
      simp only [prompt_manual_message]
      split <;> rfl

/-- A message accepted by `prompt_manual_message` is non-empty, and the
function emits no effects on that path. -/
theorem manual_ok {ctx : Ctx} {m : PyStr} {ctx2 : Ctx} {effs : List Eff}
    (h : prompt_manual_message ctx = .ok m ctx2 effs) : m ≠ [] ∧ effs = [] := by
  obtain ⟨ins, gens⟩ := ctx
  cases ins with
  | nil => simp [prompt_manual_message] at h
  | cons ev rest =>
    cases ev with
    | interrupt => simp [prompt_manual_message] at h
    | text raw =>
      simp only [prompt_manual_message] at h
      split at h
      · obtain ⟨h1, h2, h3⟩ := FlowResult.ok.inj h
        refine ⟨h1 ▸ (pyTruthyStr_iff _).mp ‹_›, h3.symm⟩
      · exact absurd h (by simp)

/-- The review loop performs no commit call: `commit_with_message` is only
invoked by `main` after the loop has returned. -/
theorem prompt_effs_commitFree :
    ∀ fuel msg ctx, commitFree (prompt_commit_message fuel msg ctx).effs = true := by
  intro fuel
  induction fuel with
  | zero => intro msg ctx; rfl
  | succ n ih =>
    intro msg ctx
    obtain ⟨ins, gens⟩ := ctx
    cases ins with
    | nil => rfl
    | cons ev rest =>
      cases ev with
      | interrupt => rfl
      | text raw =>
        simp only [prompt_commit_message]
        split
        · rfl
        · split
          · rfl
          · split
            · rcases hm : prompt_manual_message ⟨rest, gens⟩ with ⟨m2, c2, e2⟩ | ⟨c2, e2⟩ | e2 | e2 <;>
                have h1 := manual_commitFree ⟨rest, gens⟩ <;> rw [hm] at h1 <;>
                simp only [FlowResult.effs] at h1
              · rw [FlowResult.effs_prepend, commitFree_append, h1, ih]; rfl
              · exact h1
              · exact h1
              · exact h1
            · split
              · split
                · rfl
                · split
                  · rw [FlowResult.effs_prepend, commitFree_append, ih]; rfl
                  · next g gs _ =>
                    rcases hm : prompt_manual_message ⟨rest, gs⟩ with ⟨m2, c2, e2⟩ | ⟨c2, e2⟩ | e2 | e2 <;>
                      have h1 := manual_commitFree ⟨rest, gs⟩ <;> rw [hm] at h1 <;>
                      simp only [FlowResult.effs] at h1
                    · rw [FlowResult.effs_prepend, commitFree_append, h1, ih]; rfl
                    · exact h1
                    · exact h1
                    · exact h1
              · rw [FlowResult.effs_prepend, commitFree_append, ih]; rfl

/-- The review loop preserves non-emptiness of the current message: started
from a non-empty suggestion, the message it returns for commit is non-empty
(edits come from `prompt_manual_message`, regenerations are truthiness-checked). -/
theorem prompt_ok_ne :
    ∀ fuel msg ctx m ctx2 effs, msg ≠ [] →
      prompt_commit_message fuel msg ctx = .ok m ctx2 effs → m ≠ [] := by
  intro fuel
  induction fuel with
  | zero => intro msg ctx m ctx2 effs h0 h; exact absurd h (by simp [prompt_commit_message])
  | succ n ih =>
    intro msg ctx m ctx2 effs h0 h
    obtain ⟨ins, gens⟩ := ctx
    cases ins with
    | nil => exact absurd h (by simp [prompt_commit_message])
    | cons ev rest =>
      cases ev with
      | interrupt => exact absurd h (by simp [prompt_commit_message])
      | text raw =>
        simp only [prompt_commit_message] at h
        split at h
        · obtain ⟨h1, h2, h3⟩ := FlowResult.ok.inj h
          exact h1 ▸ h0
        · split at h
          · exact absurd h (by simp)
          · split at h
            · rcases hm : prompt_manual_message ⟨rest, gens⟩ with ⟨m2, c2, e2⟩ | ⟨c2, e2⟩ | e2 | e2 <;>
                rw [hm] at h
              · obtain ⟨e0, hr, he⟩ := FlowResult.prepend_eq_ok h
                exact ih m2 c2 m ctx2 e0 (manual_ok hm).1 hr
              · exact absurd h (by simp)
              · exact absurd h (by simp)
              · exact absurd h (by simp)
            · split at h
              · split at h
                · exact absurd h (by simp)
                · split at h
                  · obtain ⟨e0, hr, he⟩ := FlowResult.prepend_eq_ok h
                    exact ih _ _ m ctx2 e0 (pyTruthy_getD ‹_›) hr
                  · next g gs _ =>
                    rcases hm : prompt_manual_message ⟨rest, gs⟩ with ⟨m2, c2, e2⟩ | ⟨c2, e2⟩ | e2 | e2 <;>
                      rw [hm] at h
                    · obtain ⟨e0, hr, he⟩ := FlowResult.prepend_eq_ok h
                      exact ih m2 c2 m ctx2 e0 (manual_ok hm).1 hr
                    · exact absurd h (by simp)
                    · exact absurd h (by simp)
                    · exact absurd h (by simp)
              · obtain ⟨e0, hr, he⟩ := FlowResult.prepend_eq_ok h
                exact ih msg _ m ctx2 e0 h0 hr

/-- `mainMessage` (the whole of `main`'s try block before
`commit_with_message`) performs no commit call. -/
theorem mainMessage_commitFree (fuel : Nat) (env : Env) :
    commitFree (mainMessage fuel env).effs = true := by
  simp only [mainMessage]
  split
  · split
    · rfl
    · next g gs hgs =>
      split
      · rw [FlowResult.effs_prepend, commitFree_append, prompt_effs_commitFree]; rfl
      · have h1 := manual_commitFree ⟨env.userInputs, gs⟩
        rw [FlowResult.effs_prepend, commitFree_append]
        generalize prompt_manual_message ⟨env.userInputs, gs⟩ = r at h1
        cases r with
        | ok m2 c2 e2 =>
          simp only [FlowResult.effs] at h1
          by_cases hie : List.isEmpty m2 = true <;>
            simp_all [commitFree, isCommitCallEff, List.all_append, FlowResult.effs]
        | exit c2 e2 => simp_all [commitFree, isCommitCallEff, List.all_append, FlowResult.effs]
        | interrupt e2 => simp_all [commitFree, isCommitCallEff, List.all_append, FlowResult.effs]
        | stuck e2 => simp_all [commitFree, isCommitCallEff, List.all_append, FlowResult.effs]
  · rfl

/-- Any final message `mainMessage` hands to the commit step is non-empty. -/
theorem mainMessage_ok_ne {fuel : Nat} {env : Env} {m : PyStr} {ctx : Ctx}
    {effs : List Eff} (h : mainMessage fuel env = .ok m ctx effs) : m ≠ [] := by
  simp only [mainMessage] at h
  split at h
  · split at h
    · exact absurd h (by simp)
    · next g gs hgs =>
      split at h
      · rename_i hg
        obtain ⟨e0, hr, he⟩ := FlowResult.prepend_eq_ok h
        exact prompt_ok_ne fuel _ _ m ctx e0 (pyTruthy_getD hg) hr
      · obtain ⟨e0, hr, he⟩ := FlowResult.prepend_eq_ok h
        rcases hm : prompt_manual_message ⟨env.userInputs, gs⟩ with ⟨m2, c2, e2⟩ | ⟨c2, e2⟩ | e2 | e2 <;>
          rw [hm] at hr
        · split at hr
          · split at hr
            · exact absurd hr (by simp)
            · rename_i hie
              obtain ⟨h1, h2, h3⟩ := FlowResult.ok.inj hr
              exact fun hc => hie (by rw [h1, hc]; rfl)
          · exact absurd hr (by simp)
          · exact absurd hr (by simp)
          · exact absurd hr (by simp)
        · exact absurd hr (by simp)
        · exact absurd hr (by simp)
        · exact absurd hr (by simp)
  · exact absurd h (by simp)

-- ============ Claim theorems ============

/-- C4, counterexample: the claim states that a tool output whose length is
at most the 5000-character threshold is passed downstream exactly equal to
the input text; but `get_staged_diff` strips surrounding whitespace first,
so for the raw tool output "a\n" (length 2) the downstream diff is "a",
not "a\n". -/
theorem C4_counterexample :
    (str "a\n").length ≤ MAX_DIFF_CHARS ∧
    get_staged_diff (.success (str "a\n")) = some (str "a") ∧
    get_staged_diff (.success (str "a\n")) ≠ some (str "a\n") :=
  ⟨by decide, by decide, by decide⟩

/-- C4, amended: the downstream diff is computed from the
whitespace-stripped tool output: when the stripped text is non-empty, the
diff passed downstream equals its first 5000 characters followed by the
fixed marker "\n... [truncated]" if the stripped text exceeds 5000
characters, and equals the stripped text exactly, with no marker,
otherwise. -/
theorem C4_amended (out : PyStr) (h : pyStrip out ≠ []) :
    get_staged_diff (.success out) =
      some (if (pyStrip out).length > MAX_DIFF_CHARS
            then (pyStrip out).take MAX_DIFF_CHARS ++ truncationMarker
            else pyStrip out) := by
  simp only [get_staged_diff]
  rw [if_neg (by simpa [List.isEmpty_iff] using h)]
  split <;> simp [*]

/-- C4 witness: `C4_amended` at the concrete tool output " hi "
(stripped to "hi", length 2 ≤ 5000, so returned unmodified). -/
theorem C4_witness :
    pyStrip (str " hi ") ≠ [] ∧
    get_staged_diff (.success (str " hi ")) =
      some (if (pyStrip (str " hi ")).length > MAX_DIFF_CHARS
            then (pyStrip (str " hi ")).take MAX_DIFF_CHARS ++ truncationMarker
            else pyStrip (str " hi ")) :=
  ⟨by decide, C4_amended (str " hi ") (by decide)⟩

/-- C7: `get_staged_diff` returns `none` in exactly three situations — the
diff output is empty (tested after the source strips it, so whitespace-only
output counts as no staged changes), the tool exits non-zero
(`CalledProcessError`, logged with the captured output), or the binary
cannot be located (`FileNotFoundError`, logged with a distinct message);
the embedding is a total function of the subprocess result, reflecting that
none of these situations raises to the caller. -/
theorem C7_absent_exactly_three (r : SubprocessResult) :
    (get_staged_diff r = none ↔
       (∃ out, r = .success out ∧ pyStrip out = []) ∨
       (∃ out, r = .calledProcessError out) ∨
       r = .fileNotFoundError) ∧
    (∀ out, get_staged_diff_log (.calledProcessError out) =
       [str "Error getting git diff: " ++ out]) ∧
    get_staged_diff_log .fileNotFoundError =
      [str "Git command not found. Please ensure git is installed and in your PATH."] := by
  refine ⟨?_, fun out => rfl, rfl⟩
  cases r with
  | success out =>
      simp only [get_staged_diff]
      by_cases hie : (pyStrip out).isEmpty = true
      · rw [if_pos hie]
        simp only [List.isEmpty_iff] at hie
        simp [hie]
      · rw [if_neg hie]
        simp only [List.isEmpty_iff] at hie
        split <;> simp [hie]
  | calledProcessError out => simp [get_staged_diff]
  | fileNotFoundError => simp [get_staged_diff]

/-- C8: every failure case of the generator (HTTP-level, transport-level,
or unexpected) yields `none` together with a logged line instead of
propagating — the embedding is total, so no failure escapes to top-level
termination — and every successful response is trimmed of surrounding
whitespace before being returned as the candidate message. -/
theorem C8_generator_contract (r : ApiResult) :
    (∀ s, r = .success s → generate_commit_message r = some (pyStrip s)) ∧
    ((∀ s, r ≠ .success s) →
       generate_commit_message r = none ∧ generate_commit_message_log r ≠ []) := by
  cases r with
  | success s =>
      exact ⟨fun s' hs => by cases hs; rfl, fun hfail => absurd rfl (hfail s)⟩
  | httpError e =>
      exact ⟨fun s hs => (by cases hs),
             fun hfail => ⟨rfl, by simp [generate_commit_message_log]⟩⟩
  | requestException e =>
      exact ⟨fun s hs => (by cases hs),
             fun hfail => ⟨rfl, by simp [generate_commit_message_log]⟩⟩
  | unexpectedError e =>
      exact ⟨fun s hs => (by cases hs),
             fun hfail => ⟨rfl, by simp [generate_commit_message_log]⟩⟩

/-- C8 witness: `C8_generator_contract` applied at a successful response
carrying surrounding whitespace and at an HTTP-level failure. -/
theorem C8_witness :
    generate_commit_message (.success (str "  feat: x  ")) = some (str "feat: x") ∧
    generate_commit_message (.httpError (str "boom")) = none := by
  constructor
  · have h := (C8_generator_contract (.success (str "  feat: x  "))).1
      (str "  feat: x  ") rfl
    rw [h]; decide
  · exact ((C8_generator_contract (.httpError (str "boom"))).2 (fun s => by simp)).1

/-- One unfolding of the review loop at an Edit choice. -/
theorem prompt_edit_step (fuel : Nat) (msg : PyStr) (rest : List UserEvent)
    (gens : List ApiResult) :
    prompt_commit_message (fuel+1) msg ⟨.text (str "e") :: rest, gens⟩ =
      (match prompt_manual_message ⟨rest, gens⟩ with
       | .ok m ctx2 effs => (prompt_commit_message fuel m ctx2).prepend effs
       | .exit c effs => FlowResult.exit c effs
       | .interrupt effs => FlowResult.interrupt effs
       | .stuck effs => FlowResult.stuck effs) := rfl

/-- One unfolding of the review loop at a Regenerate choice. -/
theorem prompt_regen_step (fuel : Nat) (msg : PyStr) (rest : List UserEvent)
    (g : ApiResult) (gs : List ApiResult) :
    prompt_commit_message (fuel+1) msg ⟨.text (str "r") :: rest, g :: gs⟩ =
      (if pyTruthy (generate_commit_message g) then
         (prompt_commit_message fuel ((generate_commit_message g).getD [])
            ⟨rest, gs⟩).prepend
           [.showSuggested ((generate_commit_message g).getD [])]
       else
         match prompt_manual_message ⟨rest, gs⟩ with
         | .ok m ctx2 effs => (prompt_commit_message fuel m ctx2).prepend effs
         | .exit c effs => FlowResult.exit c effs
         | .interrupt effs => FlowResult.interrupt effs
         | .stuck effs => FlowResult.stuck effs) := rfl

/-- C9: in the Reviewing state, empty input is equivalent to an explicit
accept — both return the current message unchanged with no further
effects — and a reject choice prints the cancellation notice and raises
`sys.exit(0)`, which `main` propagates as process exit status 0, distinct
from the failure status 1. -/
theorem C9_accept_default_reject_zero :
    (∀ fuel msg rest gens,
       prompt_commit_message (fuel+1) msg ⟨.text (str "") :: rest, gens⟩ =
         prompt_commit_message (fuel+1) msg ⟨.text (str "y") :: rest, gens⟩) ∧
    (∀ fuel msg rest gens,
       prompt_commit_message (fuel+1) msg ⟨.text (str "") :: rest, gens⟩ =
         .ok msg ⟨rest, gens⟩ []) ∧
    (∀ fuel msg rest gens,
       prompt_commit_message (fuel+1) msg ⟨.text (str "n") :: rest, gens⟩ =
         .exit 0 [.print commitCancelledMsg]) ∧
    (∀ fuel env c effs, mainMessage fuel env = .exit c effs →
       processExitCode (mainRun fuel env).1 = some c) :=
  ⟨fun _ _ _ _ => rfl, fun _ _ _ _ => rfl, fun _ _ _ _ => rfl,
   fun fuel env c effs h => by simp [mainRun, h, processExitCode]⟩

/-- C9 witness: `C9_accept_default_reject_zero` at fuel 2 and at the
concrete run `envC9` in which the user rejects the suggestion. -/
theorem C9_witness :
    (prompt_commit_message 2 (str "m") ⟨[.text (str "")], []⟩ =
       prompt_commit_message 2 (str "m") ⟨[.text (str "y")], []⟩) ∧
    (prompt_commit_message 2 (str "m") ⟨[.text (str "n")], []⟩ =
       .exit 0 [.print commitCancelledMsg]) ∧
    processExitCode (mainRun 2 envC9).1 = some 0 :=
  ⟨C9_accept_default_reject_zero.1 1 (str "m") [] [],
   C9_accept_default_reject_zero.2.2.1 1 (str "m") [] [],
   C9_accept_default_reject_zero.2.2.2 2 envC9 0
     [.showDiff (str "d"), .showSuggested (str "feat: x"), .print commitCancelledMsg]
     (by decide)⟩

/-- C2, counterexample: the claim says that after choosing Edit and
entering a non-empty message the flow proceeds directly to the commit
step without returning to the Reviewing prompt; in this run the user
edits, enters "new message", and the loop then consumes a further
Reviewing choice "n", cancelling: the process exits 0 and no commit call
appears among the effects, so control returned to the Reviewing prompt
instead of committing. -/
theorem C2_counterexample :
    mainRun 5 envC2 =
      (MainResult.exited 0,
       [.showDiff (str "d"), .showSuggested (str "feat: x"),
        .print commitCancelledMsg]) := by decide

/-- C2, amended: choosing Edit and entering text whose stripped form is
non-empty installs that stripped text as the current message and control
returns to the Reviewing prompt — the loop continues exactly as a fresh
Reviewing iteration on the new message — rather than proceeding directly
to the commit step; the new message becomes final only if subsequently
accepted. -/
theorem C2_amended (fuel : Nat) (msg s : PyStr) (rest : List UserEvent)
    (gens : List ApiResult) (h : pyStrip s ≠ []) :
    prompt_commit_message (fuel+1) msg ⟨.text (str "e") :: .text s :: rest, gens⟩ =
      prompt_commit_message fuel (pyStrip s) ⟨rest, gens⟩ := by
  rw [prompt_edit_step]
  have hm : prompt_manual_message ⟨.text s :: rest, gens⟩ =
      .ok (pyStrip s) ⟨rest, gens⟩ [] := by
    simp only [prompt_manual_message]
    rw [if_pos ((pyTruthyStr_iff _).mpr h)]
  rw [hm]
  exact FlowResult.prepend_nil _

/-- C2 witness: `C2_amended` at fuel 1, current message "old", entered
text "new". -/
theorem C2_witness :
    pyStrip (str "new") ≠ [] ∧
    prompt_commit_message 2 (str "old")
        ⟨[.text (str "e"), .text (str "new")], []⟩ =
      prompt_commit_message 1 (pyStrip (str "new")) ⟨[], []⟩ :=
  ⟨by decide, C2_amended 1 (str "old") (str "new") [] [] (by decide)⟩

/-- C3, counterexample: the claim says that empty manual input in the Edit
path causes the loop to re-prompt indefinitely and is never accepted; in
this run the user chooses Edit and enters an empty message, and the
process terminates immediately with failure status 1 (the third scripted
input is never consumed), so the Edit path does not re-prompt. -/
theorem C3_counterexample :
    mainRun 5 envC3 =
      (MainResult.exited 1,
       [.showDiff (str "d"), .showSuggested (str "feat: x"),
        .print emptyMsgNotice]) := by decide

/-- C3, amended: empty manual input is handled identically at the two
manual-entry call sites: `prompt_manual_message` prints the empty-message
notice and exits with failure status 1 on the first empty input (its
`while True` body never re-executes), both when reached via the Edit
choice and when reached as the fallback after a failed generation, where
the process likewise terminates with status 1. -/
theorem C3_amended :
    (∀ s rest gens, pyStrip s = [] →
       prompt_manual_message ⟨.text s :: rest, gens⟩ =
         .exit 1 [.print emptyMsgNotice]) ∧
    (∀ fuel msg s rest gens, pyStrip s = [] →
       prompt_commit_message (fuel+1) msg
           ⟨.text (str "e") :: .text s :: rest, gens⟩ =
         .exit 1 [.print emptyMsgNotice]) ∧
    (∀ fuel env g gs s rest,
       pyTruthy (get_staged_diff env.diffResult) = true →
       env.genResults = g :: gs →
       pyTruthy (generate_commit_message g) = false →
       env.userInputs = .text s :: rest →
       pyStrip s = [] →
       (mainRun fuel env).1 = MainResult.exited 1) := by
  have hman : ∀ (s : PyStr) rest gens, pyStrip s = [] →
      prompt_manual_message ⟨.text s :: rest, gens⟩ =
        .exit 1 [.print emptyMsgNotice] := by
    intro s rest gens h
    simp [prompt_manual_message, pyTruthyStr, h]
  refine ⟨hman, ?_, ?_⟩
  · intro fuel msg s rest gens h
    rw [prompt_edit_step, hman s rest gens h]
  · intro fuel env g gs s rest hd hg hgen hu hs
    have hmm : mainMessage fuel env =
        .exit 1 ([.showDiff ((get_staged_diff env.diffResult).getD []),
                  .print failedGenMsg] ++ [.print emptyMsgNotice]) := by
      simp only [mainMessage, hg, hu]
      rw [if_pos hd, if_neg (by simp [hgen])]
      rw [hman s rest gs hs]
      rfl
    simp [mainRun, hmm]

/-- C3 witness: the clauses of `C3_amended` at concrete inputs, the third
at the run `envC3w` whose generation fails and whose first manual input
is empty. -/
theorem C3_witness :
    (prompt_manual_message ⟨[.text (str "  ")], []⟩ =
       .exit 1 [.print emptyMsgNotice]) ∧
    (prompt_commit_message 4 (str "m") ⟨[.text (str "e"), .text (str "")], []⟩ =
       .exit 1 [.print emptyMsgNotice]) ∧
    (mainRun 3 envC3w).1 = MainResult.exited 1 :=
  ⟨C3_amended.1 (str "  ") [] [] (by decide),
   C3_amended.2.1 3 (str "m") (str "") [] [] (by decide),
   C3_amended.2.2 3 envC3w (.unexpectedError []) [] (str "") []
     (by decide) rfl (by decide) rfl (by decide)⟩

/-- C10: a generation response that is empty or whitespace-only is, after
trimming, handled exactly like a failed generation: the generator returns
a falsy value, so on the initial generation `main` behaves identically to
an error result (printing the failure notice and falling through to
manual entry, never displaying a suggestion), and on a regeneration the
review loop likewise falls back to manual entry. -/
theorem C10_blank_generation (s : PyStr) (h : pyStrip s = []) :
    pyTruthy (generate_commit_message (.success s)) = false ∧
    (∀ fuel dr ins gs cr,
       mainMessage fuel ⟨dr, .success s :: gs, ins, cr⟩ =
         mainMessage fuel ⟨dr, .unexpectedError [] :: gs, ins, cr⟩) ∧
    (∀ fuel msg ins gs,
       prompt_commit_message (fuel+1) msg
           ⟨.text (str "r") :: ins, .success s :: gs⟩ =
         prompt_commit_message (fuel+1) msg
           ⟨.text (str "r") :: ins, .unexpectedError [] :: gs⟩) := by
  refine ⟨by simp [generate_commit_message, pyTruthy, pyTruthyStr, h], ?_, ?_⟩
  · intro fuel dr ins gs cr
    simp [mainMessage, generate_commit_message, h, pyTruthy, pyTruthyStr]
  · intro fuel msg ins gs
    rw [prompt_regen_step, prompt_regen_step]
    simp [generate_commit_message, h, pyTruthy, pyTruthyStr]

/-- C10 witness: `C10_blank_generation` at the whitespace-only response
" " with small concrete contexts. -/
theorem C10_witness :
    pyStrip (str " ") = [] ∧
    (pyTruthy (generate_commit_message (.success (str " "))) = false ∧
     (mainMessage 1 ⟨.fileNotFoundError, [.success (str " ")], [], .success⟩ =
        mainMessage 1 ⟨.fileNotFoundError, [.unexpectedError []], [], .success⟩) ∧
     (prompt_commit_message 2 (str "m") ⟨[.text (str "r")], [.success (str " ")]⟩ =
        prompt_commit_message 2 (str "m") ⟨[.text (str "r")], [.unexpectedError []]⟩)) :=
  ⟨by decide,
   (C10_blank_generation (str " ") (by decide)).1,
   (C10_blank_generation (str " ") (by decide)).2.1 1 .fileNotFoundError [] [] .success,
   (C10_blank_generation (str " ") (by decide)).2.2 1 (str "m") [] []⟩

/-- C1, counterexample: in a run whose `git commit` subprocess exits
non-zero, `commit_with_message` swallows the `CalledProcessError` (the
notice it prints renders `getattr(e, 'stderr', e)`, which is the literal
`None` because stderr is not captured) and `main` then returns normally,
so the process exit status is 0, not the claimed failure status 1. -/
theorem C1_counterexample :
    envC1.commitResult = CommitResult.calledProcessError none ∧
    mainRun 5 envC1 =
      (MainResult.returnedNormally,
       [.showDiff (str "diff text"), .showSuggested (str "feat: x"),
        .commitCall (str "feat: x"), .print gitCommitErrorNoneMsg]) ∧
    processExitCode (mainRun 5 envC1).1 = some 0 ∧
    processExitCode (mainRun 5 envC1).1 ≠ some 1 :=
  ⟨rfl, by decide, by decide, by decide⟩

/-- C1, amended: exit status 0 is produced on successful commit and on
explicit user cancellation, and — contrary to the original claim — also
on commit failure: the commit step catches the error, displays a notice
whose detail is the literal text `None` (stderr is not captured by the
`subprocess.run` call, so no captured error text exists to display), and
returns, after which `main` returns normally and the process exits with
status 0.  Status 1 is produced when there are no staged changes, and
every `sys.exit` code raised inside the flow (0 on rejection, 1 on empty
manual message) propagates unchanged to the process exit status. -/
theorem C1_amended :
    (∀ fuel env msg ctx effs,
        env.commitResult = CommitResult.calledProcessError none →
        mainMessage fuel env = .ok msg ctx effs →
        processExitCode (mainRun fuel env).1 = some 0 ∧
        Eff.print gitCommitErrorNoneMsg ∈ (mainRun fuel env).2) ∧
    (∀ fuel env msg ctx effs, env.commitResult = CommitResult.success →
        mainMessage fuel env = .ok msg ctx effs →
        processExitCode (mainRun fuel env).1 = some 0) ∧
    (∀ fuel env, pyTruthy (get_staged_diff env.diffResult) = false →
        mainRun fuel env = (MainResult.exited 1, [.print noStagedMsg])) ∧
    (∀ fuel env c effs, mainMessage fuel env = .exit c effs →
        processExitCode (mainRun fuel env).1 = some c) := by
  refine ⟨?_, ?_, ?_, ?_⟩
  · intro fuel env msg ctx effs hc hm
    constructor
    · simp [mainRun, hm, processExitCode]
    · have hren : str "\n[red]Git commit error:[/red]\n" ++ pyStrOfOptional none =
          gitCommitErrorNoneMsg := by decide
      simp [mainRun, hm, hc, commit_with_message, hren]
  · intro fuel env msg ctx effs hc hm
    simp [mainRun, hm, processExitCode]
  · intro fuel env hd
    simp [mainRun, mainMessage, hd]
  · intro fuel env c effs h
    simp [mainRun, h, processExitCode]

/-- C1 witness: `C1_amended`'s commit-failure clause at the concrete run
`envC1`. -/
theorem C1_witness :
    envC1.commitResult = CommitResult.calledProcessError none ∧
    mainMessage 5 envC1 =
      .ok (str "feat: x") ⟨[], []⟩
        [.showDiff (str "diff text"), .showSuggested (str "feat: x")] ∧
    (processExitCode (mainRun 5 envC1).1 = some 0 ∧
     Eff.print gitCommitErrorNoneMsg ∈ (mainRun 5 envC1).2) :=
  ⟨rfl, by decide,
   C1_amended.1 5 envC1 (str "feat: x") ⟨[], []⟩
     [.showDiff (str "diff text"), .showSuggested (str "feat: x")]
     rfl (by decide)⟩

/-- C5: the commit subprocess is invoked only with a validated non-empty
message: every commit call recorded in a run carries a non-empty message,
and commit calls occur only in runs whose try block completed normally —
so no commit is issued when the diff is absent, on a rejection or
cancellation, or on any `sys.exit` path (including the fallback in which
manual entry yields no non-empty text). -/
theorem C5_commit_only_validated (fuel : Nat) (env : Env) (m : PyStr)
    (h : Eff.commitCall m ∈ (mainRun fuel env).2) :
    m ≠ [] ∧ (mainRun fuel env).1 = MainResult.returnedNormally := by
  have hcf := mainMessage_commitFree fuel env
  rcases hm : mainMessage fuel env with ⟨m2, c2, e2⟩ | ⟨c2, e2⟩ | e2 | e2 <;>
    rw [hm] at hcf <;> simp only [FlowResult.effs] at hcf <;>
    simp only [mainRun, hm] at h ⊢
  · constructor
    · rcases List.mem_append.1 h with h1 | h2
      · exact absurd h1 (not_mem_of_commitFree hcf m)
      · have hm2 : m = m2 := by
          cases hcr : env.commitResult <;> rw [hcr] at h2 <;>
            simp [commit_with_message] at h2 <;> tauto
        exact hm2 ▸ mainMessage_ok_ne hm
    · trivial
  · exact absurd h (not_mem_of_commitFree hcf m)
  · rcases List.mem_append.1 h with h1 | h2
    · exact absurd h1 (not_mem_of_commitFree hcf m)
    · simp at h2
  · exact absurd h (not_mem_of_commitFree hcf m)

/-- C5 witness: `C5_commit_only_validated` at the concrete run `envC5`
(failed generation, manual entry " feat: y ", successful commit). -/
theorem C5_witness :
    Eff.commitCall (str "feat: y") ∈ (mainRun 3 envC5).2 ∧
    (str "feat: y" ≠ [] ∧ (mainRun 3 envC5).1 = MainResult.returnedNormally) :=
  ⟨by decide, C5_commit_only_validated 3 envC5 (str "feat: y") (by decide)⟩

/-- C6: a `KeyboardInterrupt` raised at any blocking input point of the
interaction loop propagates out of the try block to `main`'s handler,
which prints the cancellation notice and exits with status 0 (the
cancellation status, distinct from an error status), and no commit call
is issued in such a run. -/
theorem C6_interrupt_cancels (fuel : Nat) (env : Env) (effs : List Eff)
    (h : mainMessage fuel env = .interrupt effs) :
    processExitCode (mainRun fuel env).1 = some 0 ∧
    Eff.print cancelNotice ∈ (mainRun fuel env).2 ∧
    ∀ m, Eff.commitCall m ∉ (mainRun fuel env).2 := by
  have hcf := mainMessage_commitFree fuel env
  rw [h] at hcf; simp only [FlowResult.effs] at hcf
  simp only [mainRun, h]
  refine ⟨rfl, by simp, ?_⟩
  intro m hmem
  rcases List.mem_append.1 hmem with h1 | h2
  · exact absurd h1 (not_mem_of_commitFree hcf m)
  · simp at h2

/-- C6 witness: `C6_interrupt_cancels` at the concrete run `envC6`, which
is interrupted at the Reviewing prompt. -/
theorem C6_witness :
    mainMessage 5 envC6 =
      .interrupt [.showDiff (str "d"), .showSuggested (str "feat: x")] ∧
    processExitCode (mainRun 5 envC6).1 = some 0 ∧
    Eff.print cancelNotice ∈ (mainRun 5 envC6).2 ∧
    Eff.commitCall (str "feat: x") ∉ (mainRun 5 envC6).2 :=
  ⟨by decide,
   (C6_interrupt_cancels 5 envC6
     [.showDiff (str "d"), .showSuggested (str "feat: x")] (by decide)).1,
   (C6_interrupt_cancels 5 envC6
     [.showDiff (str "d"), .showSuggested (str "feat: x")] (by decide)).2.1,
   (C6_interrupt_cancels 5 envC6
     [.showDiff (str "d"), .showSuggested (str "feat: x")] (by decide)).2.2
     (str "feat: x")⟩

end AiCommit
